import Mathlib

/-!
Shallow embedding of the `SophosClient` HTTP client (src/client.ts) of the
sophos-mcp repository: OAuth2 token lifecycle (`authenticate`), tenant/region
discovery (`discoverTenant`), request dispatch (`request` and the
`get`/`post`/`patch`/`delete` bindings) and error classification
(`handleErrorResponse`).

Network effects are modelled by passing the outcome of each `fetch` call as an
explicit oracle value (`AuthNet`, `WhoamiNet`, `ReqNet`); thrown JavaScript
exceptions are the `Thrown` type, with `Thrown.sophos` for the typed error
classes and `Thrown.jsError` for a raw rethrown exception identified by its
`name` property. Times are milliseconds as integers (`Date.now()`).
JavaScript truthiness of optional strings / numbers is made explicit
(`truthyStr`, `truthyInt`: `undefined`, `""` and `0` are falsy).
-/

namespace Sophos

instance {ε α : Type} [DecidableEq ε] [DecidableEq α] : DecidableEq (Except ε α) :=
  fun a b =>
    match a, b with
    | .ok x, .ok y => decidable_of_iff (x = y) (by simp)
    | .error x, .error y => decidable_of_iff (x = y) (by simp)
    | .ok _, .error _ => isFalse (fun h => Except.noConfusion h)
    | .error _, .ok _ => isFalse (fun h => Except.noConfusion h)

/-- Configuration record (src/config.ts `SophosConfig`). `tenantId` and
`apiUrl` are the optional pre-configured tenant / data-region values; `timeout`
is in milliseconds. -/
structure SophosConfig where
  clientId : String
  clientSecret : String
  tenantId : Option String
  apiUrl : Option String
  authUrl : String
  globalUrl : String
  timeout : Int
deriving Repr, DecidableEq

/-- JavaScript truthiness of a possibly-undefined string: `undefined` and the
empty string are falsy. -/
def truthyStr : Option String → Bool
  | none => false
  | some s => s ≠ ""

/-- JavaScript truthiness of a possibly-undefined number: `undefined` and `0`
are falsy. -/
def truthyInt : Option Int → Bool
  | none => false
  | some n => n ≠ 0

/-- JavaScript string coercion of a possibly-undefined string, as it happens in
template literals. -/
def jsStr : Option String → String
  | none => "undefined"
  | some s => s

/-- `parseInt(s, 10)`: skip leading whitespace, optional sign, then the longest
leading run of decimal digits; `none` models `NaN` (no digits). -/
def jsParseInt (s : String) : Option Int :=
  let cs := s.toList.dropWhile (fun c => c == ' ' || c == '\t' || c == '\n' || c == '\r')
  let neg : Bool := cs.head? == some '-'
  let cs2 := if cs.head? == some '-' || cs.head? == some '+' then cs.drop 1 else cs
  let digits := cs2.takeWhile Char.isDigit
  if digits.isEmpty then none
  else
    let n : Nat := digits.foldl (fun acc c => acc * 10 + (c.toNat - 48)) 0
    some (if neg then -(n : Int) else (n : Int))

/-- The mutable fields of a `SophosClient` instance (`config` itself is
`readonly` and is passed separately, unchanged, to every operation). -/
structure ClientState where
  accessToken : Option String
  tokenExpiresAt : Option Int
  dataRegionUrl : Option String
  tenantId : Option String
deriving Repr, DecidableEq

/-- The `SophosClient` constructor: caches start empty, tenant id and
data-region URL are seeded from the configuration. -/
def ClientState.init (config : SophosConfig) : ClientState :=
  { accessToken := none
    tokenExpiresAt := none
    dataRegionUrl := config.apiUrl
    tenantId := config.tenantId }

/-- The error classes: `SophosClientError` (base, optional status),
`SophosAuthError` (optional status), `SophosRateLimitError` (the constructor
always passes status `429` to the base class; `retryAfter` is
`Option (Option Int)`: outer `none` = the field is `undefined`, inner `none` =
`NaN` from `parseInt`). -/
inductive SophosError where
  | clientError (message : String) (statusCode : Option Nat)
  | authError (message : String) (statusCode : Option Nat)
  | rateLimitError (message : String) (statusCode : Nat) (retryAfter : Option (Option Int))
deriving Repr, DecidableEq

/-- `new SophosRateLimitError(message, retryAfter)` calls `super(message, 429)`. -/
def mkRateLimitError (message : String) (retryAfter : Option (Option Int)) : SophosError :=
  .rateLimitError message 429 retryAfter

/-- Is this error of the authentication kind? -/
def SophosError.isAuthError : SophosError → Bool
  | .authError _ _ => true
  | _ => false

/-- A thrown JavaScript exception: either one of the typed Sophos error
classes, or a raw (re)thrown exception identified by its `name` property. -/
inductive Thrown where
  | sophos (e : SophosError)
  | jsError (name : String)
deriving Repr, DecidableEq

/-- Is the thrown value one of the typed Sophos error classes (an
`instanceof SophosClientError`)? -/
def Thrown.isSophosError : Thrown → Bool
  | .sophos _ => true
  | .jsError _ => false

/-- Is the thrown value a `SophosAuthError`? -/
def Thrown.isAuthError : Thrown → Bool
  | .sophos e => e.isAuthError
  | .jsError _ => false

/-- Parsed JSON body of the token endpoint (`SophosTokenResponse`). -/
structure SophosTokenResponse where
  access_token : String
  expires_in : Int
  errorCode : Option String
  message : Option String
deriving Repr, DecidableEq

/-- Oracle for the token-endpoint `fetch` in `authenticate`:
the promise rejected with an exception of the given `name`; or the response
was not ok (`text` is `response.text()`, `none` when decoding itself failed);
or it was ok with a parsed JSON body. -/
inductive AuthNet where
  | fetchError (name : String)
  | httpError (status : Nat) (text : Option String)
  | ok (body : SophosTokenResponse)
deriving Repr, DecidableEq

/-- Result of one `authenticate()` call: the returned token or the thrown
error, the client state afterwards, and whether the network was touched. -/
structure AuthResult where
  outcome : Except Thrown String
  st : ClientState
  networkCalled : Bool
deriving Repr, DecidableEq

/-- The cached-token fast path guard:
`this.accessToken && this.tokenExpiresAt && Date.now() < this.tokenExpiresAt`. -/
def tokenCacheHit (st : ClientState) (now : Int) : Bool :=
  truthyStr st.accessToken && truthyInt st.tokenExpiresAt &&
    decide (now < st.tokenExpiresAt.getD 0)

/-- `SophosClient.authenticate`, lines 86-141 of src/client.ts. -/
def authenticate (cfg : SophosConfig) (st : ClientState) (now : Int)
    (net : AuthNet) : AuthResult :=
  if tokenCacheHit st now then
    { outcome := .ok (st.accessToken.getD ""), st := st, networkCalled := false }
  else
    match net with
    | .fetchError name =>
        if name = "AbortError" then
          { outcome := .error (.sophos (.clientError
              ("OAuth2 token request timed out after " ++ toString cfg.timeout ++ "ms")
              none))
            st := st, networkCalled := true }
        else
          { outcome := .error (.jsError name), st := st, networkCalled := true }
    | .httpError status text =>
        { outcome := .error (.sophos (.authError
            ("OAuth2 authentication failed (" ++ toString status ++ "): "
              ++ text.getD "Unknown error")
            (some status)))
          st := st, networkCalled := true }
    | .ok body =>
        if truthyStr body.errorCode then
          { outcome := .error (.sophos (.authError
              ("OAuth2 error: " ++ jsStr body.errorCode ++ " — " ++ jsStr body.message)
              none))
            st := st, networkCalled := true }
        else
          { outcome := .ok body.access_token
            st := { st with
                    accessToken := some body.access_token
                    tokenExpiresAt := some (now + (body.expires_in - 60) * 1000) }
            networkCalled := true }

/-- The part of the `whoami/v1` response body that `discoverTenant` reads:
`id` and `apiHosts.dataRegion`. -/
structure SophosWhoamiResponse where
  id : String
  dataRegion : String
deriving Repr, DecidableEq

/-- Oracle for the discovery `fetch` in `discoverTenant`. -/
inductive WhoamiNet where
  | fetchError (name : String)
  | httpError (status : Nat)
  | ok (body : SophosWhoamiResponse)
deriving Repr, DecidableEq

/-- Result of one `discoverTenant()` call. `discoveryCalled` records whether
the whoami endpoint was contacted at all. -/
structure DiscoverResult where
  outcome : Except Thrown Unit
  st : ClientState
  authNetworkCalled : Bool
  discoveryCalled : Bool
deriving Repr, DecidableEq

/-- `a || b` on an optional-string field against a freshly discovered value. -/
def jsOrStr (a : Option String) (b : String) : Option String :=
  if truthyStr a then a else some b

/-- `SophosClient.discoverTenant`, lines 146-178 of src/client.ts. Note the
catch block around the discovery `fetch` rethrows the raw error unchanged
(it does not translate `AbortError` the way `authenticate` and `request` do). -/
def discoverTenant (cfg : SophosConfig) (st : ClientState) (now : Int)
    (authNet : AuthNet) (whoamiNet : WhoamiNet) : DiscoverResult :=
  if truthyStr st.dataRegionUrl && truthyStr st.tenantId then
    { outcome := .ok (), st := st, authNetworkCalled := false, discoveryCalled := false }
  else
    let a := authenticate cfg st now authNet
    match a.outcome with
    | .error e =>
        { outcome := .error e, st := a.st
          authNetworkCalled := a.networkCalled, discoveryCalled := false }
    | .ok _token =>
        match whoamiNet with
        | .fetchError name =>
            { outcome := .error (.jsError name), st := a.st
              authNetworkCalled := a.networkCalled, discoveryCalled := true }
        | .httpError status =>
            { outcome := .error (.sophos (.clientError
                ("Tenant discovery failed (" ++ toString status ++ ")")
                (some status)))
              st := a.st, authNetworkCalled := a.networkCalled, discoveryCalled := true }
        | .ok body =>
            { outcome := .ok ()
              st := { a.st with
                      dataRegionUrl := jsOrStr a.st.dataRegionUrl body.dataRegion
                      tenantId := jsOrStr a.st.tenantId body.id }
              authNetworkCalled := a.networkCalled, discoveryCalled := true }

/-- The fields of an error-response JSON body that `handleErrorResponse`
reads. -/
structure ErrBody where
  message : Option String
  error : Option String
deriving Repr, DecidableEq

/-- An HTTP error response as seen by `handleErrorResponse`: status, status
text, the parsed JSON body (`none` when `response.json()` rejected), and the
`Retry-After` header (`none` models `headers.get` returning `null`). -/
structure ErrResponse where
  status : Nat
  statusText : String
  json : Option ErrBody
  retryAfterHeader : Option String
deriving Repr, DecidableEq

/-- `SophosClient.handleErrorResponse`, lines 258-293 of src/client.ts. It
always throws; the model returns the thrown error together with the updated
client state. -/
def handleErrorResponse (st : ClientState) (resp : ErrResponse) :
    SophosError × ClientState :=
  let base := toString resp.status ++ " " ++ resp.statusText
  let errorMsg :=
    match resp.json with
    | none => base
    | some b =>
        if truthyStr b.message then base ++ ": " ++ jsStr b.message
        else if truthyStr b.error then base ++ ": " ++ jsStr b.error
        else base
  if resp.status = 401 ∨ resp.status = 403 then
    (.authError ("Authentication failed: " ++ errorMsg) (some resp.status),
     { st with accessToken := none, tokenExpiresAt := none })
  else if resp.status = 429 then
    (mkRateLimitError ("Rate limited: " ++ errorMsg)
      (if truthyStr resp.retryAfterHeader
        then some (jsParseInt (resp.retryAfterHeader.getD ""))
        else none),
     st)
  else
    (.clientError ("Request failed: " ++ errorMsg) (some resp.status), st)

/-- Oracle for the data `fetch` in `request`: an exception, or a response
(status, status text, the error-body JSON used by `handleErrorResponse` when
the status is not ok, the `Retry-After` header, and the success body). -/
inductive ReqNet where
  | fetchError (name : String)
  | resp (status : Nat) (statusText : String) (errJson : Option ErrBody)
      (retryAfterHeader : Option String) (body : String)
deriving Repr, DecidableEq

/-- What `request` hands back to the caller: the empty object `{}` on a 204,
or the parsed JSON body passed through verbatim. -/
inductive JsonBody where
  | emptyObj
  | parsed (raw : String)
deriving Repr, DecidableEq

/-- The environment of one `request` call: the clock value and token-endpoint
oracle for the `authenticate` performed inside `discoverTenant` (`nowD`,
`authNetD`), the discovery oracle, the clock value and oracle for the second
`authenticate`, and the data-call oracle. -/
structure ReqEnv where
  nowD : Int
  authNetD : AuthNet
  whoamiNet : WhoamiNet
  nowA : Int
  authNetA : AuthNet
  reqNet : ReqNet
deriving Repr, DecidableEq

/-- Result of one `request` call. `usedGlobalUrl` and `baseUrl` record which
base host the dispatch selected (`none` when resolution or authentication
failed before the URL was built). -/
structure RequestResult where
  outcome : Except Thrown JsonBody
  st : ClientState
  discoveryCalled : Bool
  usedGlobalUrl : Option Bool
  baseUrl : Option String
deriving Repr, DecidableEq

/-- `SophosClient.request`, lines 196-256 of src/client.ts. -/
def request (cfg : SophosConfig) (st : ClientState)
    (_method : String) (_endpoint : String)
    (_params : List (String × Option String)) (_body : Option String)
    (useGlobalUrl : Bool) (env : ReqEnv) : RequestResult :=
  let d := discoverTenant cfg st env.nowD env.authNetD env.whoamiNet
  match d.outcome with
  | .error e =>
      { outcome := .error e, st := d.st, discoveryCalled := d.discoveryCalled
        usedGlobalUrl := none, baseUrl := none }
  | .ok _ =>
      let a := authenticate cfg d.st env.nowA env.authNetA
      match a.outcome with
      | .error e =>
          { outcome := .error e, st := a.st, discoveryCalled := d.discoveryCalled
            usedGlobalUrl := none, baseUrl := none }
      | .ok _token =>
          let base := if useGlobalUrl then cfg.globalUrl else jsStr a.st.dataRegionUrl
          match env.reqNet with
          | .fetchError name =>
              if name = "AbortError" then
                { outcome := .error (.sophos (.clientError
                    ("Sophos Central API timeout after " ++ toString cfg.timeout ++ "ms")
                    none))
                  st := a.st, discoveryCalled := d.discoveryCalled
                  usedGlobalUrl := some useGlobalUrl, baseUrl := some base }
              else
                { outcome := .error (.jsError name)
                  st := a.st, discoveryCalled := d.discoveryCalled
                  usedGlobalUrl := some useGlobalUrl, baseUrl := some base }
          | .resp status statusText errJson retryAfterHeader body =>
              if 200 ≤ status ∧ status < 300 then
                if status = 204 then
                  { outcome := .ok .emptyObj
                    st := a.st, discoveryCalled := d.discoveryCalled
                    usedGlobalUrl := some useGlobalUrl, baseUrl := some base }
                else
                  { outcome := .ok (.parsed body)
                    st := a.st, discoveryCalled := d.discoveryCalled
                    usedGlobalUrl := some useGlobalUrl, baseUrl := some base }
              else
                let r := handleErrorResponse a.st
                  { status := status, statusText := statusText
                    json := errJson, retryAfterHeader := retryAfterHeader }
                { outcome := .error (.sophos r.1)
                  st := r.2, discoveryCalled := d.discoveryCalled
                  usedGlobalUrl := some useGlobalUrl, baseUrl := some base }

/-- `SophosClient.get`: `request("GET", endpoint, params, undefined, useGlobalUrl)`. -/
def get (cfg : SophosConfig) (st : ClientState) (endpoint : String)
    (params : List (String × Option String)) (useGlobalUrl : Bool)
    (env : ReqEnv) : RequestResult :=
  request cfg st "GET" endpoint params none useGlobalUrl env

/-- `SophosClient.post`: `request("POST", endpoint, params, body, useGlobalUrl)`. -/
def post (cfg : SophosConfig) (st : ClientState) (endpoint : String)
    (body : Option String) (params : List (String × Option String))
    (useGlobalUrl : Bool) (env : ReqEnv) : RequestResult :=
  request cfg st "POST" endpoint params body useGlobalUrl env

/-- `SophosClient.patch`: `request("PATCH", endpoint, params, body)` — the
`useGlobalUrl` parameter is left at its default `false`. -/
def patch (cfg : SophosConfig) (st : ClientState) (endpoint : String)
    (body : Option String) (params : List (String × Option String))
    (env : ReqEnv) : RequestResult :=
  request cfg st "PATCH" endpoint params body false env

/-- `SophosClient.delete`: `request("DELETE", endpoint, params)` — the
`useGlobalUrl` parameter is left at its default `false`. -/
def delete (cfg : SophosConfig) (st : ClientState) (endpoint : String)
    (params : List (String × Option String)) (env : ReqEnv) : RequestResult :=
  request cfg st "DELETE" endpoint params none false env

/-- Both region-binding fields are known (non-empty). -/
def resolved (st : ClientState) : Bool :=
  truthyStr st.dataRegionUrl && truthyStr st.tenantId

/-- One dispatched request of a sequence: its arguments and environment. -/
structure ReqCall where
  method : String
  endpoint : String
  params : List (String × Option String)
  body : Option String
  useGlobalUrl : Bool
  env : ReqEnv
deriving Repr, DecidableEq

/-- Run a sequence of dispatched requests, threading the client state; the
boolean records whether any of them contacted the discovery endpoint. -/
def runSeq (cfg : SophosConfig) (st : ClientState) : List ReqCall → ClientState × Bool
  | [] => (st, false)
  | c :: cs =>
      let r := request cfg st c.method c.endpoint c.params c.body c.useGlobalUrl c.env
      let rest := runSeq cfg r.st cs
      (rest.1, r.discoveryCalled || rest.2)

/-! Concrete example inputs used to exercise the definitions. -/

/-- A concrete configuration with the default Sophos endpoints and the default
30-second timeout. -/
def cfgEx : SophosConfig :=
  { clientId := "client-id"
    clientSecret := "client-secret"
    tenantId := none
    apiUrl := none
    authUrl := "https://id.sophos.com/api/v2/oauth2/token"
    globalUrl := "https://api.central.sophos.com"
    timeout := 30000 }

/-- The freshly constructed client state for `cfgEx`. -/
def stEmpty : ClientState := ClientState.init cfgEx

/-- A concrete successful token-endpoint body: one-hour token, no embedded
error code. -/
def tokBodyEx : SophosTokenResponse :=
  { access_token := "tok-abc", expires_in := 3600, errorCode := none, message := none }

/-- A concrete token-endpoint body carrying an application-level error code
inside a success response. -/
def tokBodyErrEx : SophosTokenResponse :=
  { access_token := "", expires_in := 0
    errorCode := some "oauth.invalid_client_secret"
    message := some "Invalid client secret" }

/-- A concrete whoami body. -/
def whoamiEx : SophosWhoamiResponse :=
  { id := "tenant-123", dataRegion := "https://api-us01.central.sophos.com" }

/-- A client state holding a far-future cached token but no region binding. -/
def stTokenOnly : ClientState :=
  { accessToken := some "cached-token", tokenExpiresAt := some 9999999999
    dataRegionUrl := none, tenantId := none }

/-- A fully resolved client state with a cached token. -/
def stResolved : ClientState :=
  { accessToken := some "cached-token", tokenExpiresAt := some 9999999999
    dataRegionUrl := some "https://api-us01.central.sophos.com"
    tenantId := some "tenant-123" }

/-- A client state with a configured data-region URL but no tenant id and no
cached token. -/
def stCfgUrlOnly : ClientState :=
  { accessToken := none, tokenExpiresAt := none
    dataRegionUrl := some "https://configured.example.com"
    tenantId := none }

/-- A concrete 401 response with no decodable body. -/
def resp401Ex : ErrResponse :=
  { status := 401, statusText := "Unauthorized", json := none, retryAfterHeader := none }

/-- A concrete 429 response carrying `Retry-After: 30`. -/
def resp429RetryEx : ErrResponse :=
  { status := 429, statusText := "Too Many Requests", json := none
    retryAfterHeader := some "30" }

/-- A concrete 429 response without a `Retry-After` header. -/
def resp429NoRetryEx : ErrResponse :=
  { status := 429, statusText := "Too Many Requests", json := none
    retryAfterHeader := none }

/-- A concrete request environment in which every network interaction would
succeed. -/
def envEx : ReqEnv :=
  { nowD := 0, authNetD := .ok tokBodyEx, whoamiNet := .ok whoamiEx
    nowA := 0, authNetA := .ok tokBodyEx
    reqNet := .resp 200 "OK" none none "{}" }

/-! Helper lemmas shared by the claim theorems. -/

/-- Whenever the cached-token fast path does not apply, `authenticate`
performs the token exchange. -/
theorem authenticate_networkCalled_of_miss (cfg : SophosConfig) (st : ClientState)
    (now : Int) (net : AuthNet) (h : tokenCacheHit st now = false) :
    (authenticate cfg st now net).networkCalled = true := by
  unfold authenticate
  rw [h]
  simp only [Bool.false_eq_true, if_false]
  cases net <;> dsimp only <;> (try split) <;> rfl

/-- `authenticate` never writes the region-binding fields. -/
theorem authenticate_region_eq (cfg : SophosConfig) (st : ClientState)
    (now : Int) (net : AuthNet) :
    (authenticate cfg st now net).st.dataRegionUrl = st.dataRegionUrl ∧
    (authenticate cfg st now net).st.tenantId = st.tenantId := by
  refine ⟨?_, ?_⟩ <;>
    (unfold authenticate; split
     · rfl
     · cases net <;> dsimp only <;> (try split) <;> rfl)

/-- `handleErrorResponse` never writes the region-binding fields. -/
theorem handleErrorResponse_region_eq (st : ClientState) (resp : ErrResponse) :
    (handleErrorResponse st resp).2.dataRegionUrl = st.dataRegionUrl ∧
    (handleErrorResponse st resp).2.tenantId = st.tenantId := by
  refine ⟨?_, ?_⟩ <;>
    (unfold handleErrorResponse
     dsimp only
     repeat' split
     all_goals rfl)

/-- With both region-binding fields known, `discoverTenant` returns
immediately and touches nothing. -/
theorem discoverTenant_noop_of_resolved (cfg : SophosConfig) (st : ClientState)
    (now : Int) (authNet : AuthNet) (whoamiNet : WhoamiNet)
    (h : resolved st = true) :
    discoverTenant cfg st now authNet whoamiNet =
      { outcome := .ok (), st := st, authNetworkCalled := false
        discoveryCalled := false } := by
  unfold resolved at h
  unfold discoverTenant
  rw [h]
  rfl

/-- A dispatched request on a resolved client never contacts the discovery
endpoint and leaves the client resolved. -/
theorem request_keeps_resolved (cfg : SophosConfig) (st : ClientState)
    (m ep : String) (ps : List (String × Option String)) (b : Option String)
    (ugu : Bool) (env : ReqEnv) (h : resolved st = true) :
    (request cfg st m ep ps b ugu env).discoveryCalled = false ∧
    resolved (request cfg st m ep ps b ugu env).st = true := by
  have hreg := authenticate_region_eq cfg st env.nowA env.authNetA
  have hres2 : resolved (authenticate cfg st env.nowA env.authNetA).st = true := by
    unfold resolved at h ⊢
    rw [hreg.1, hreg.2]
    exact h
  unfold request
  rw [discoverTenant_noop_of_resolved cfg st env.nowD env.authNetD env.whoamiNet h]
  dsimp only
  cases ha : (authenticate cfg st env.nowA env.authNetA).outcome with
  | error e =>
      exact ⟨rfl, hres2⟩
  | ok tok =>
      dsimp only
      cases env.reqNet with
      | fetchError name =>
          dsimp only
          split <;> exact ⟨rfl, hres2⟩
      | resp status statusText errJson rah rbody =>
          dsimp only
          split
          · split
            · exact ⟨rfl, hres2⟩
            · exact ⟨rfl, hres2⟩
          · refine ⟨rfl, ?_⟩
            have hr := handleErrorResponse_region_eq
              (authenticate cfg st env.nowA env.authNetA).st
              { status := status, statusText := statusText
                json := errJson, retryAfterHeader := rah }
            unfold resolved at hres2 ⊢
            rw [hr.1, hr.2]
            exact hres2

/-- No request of a sequence run from a resolved client state contacts the
discovery endpoint. -/
theorem runSeq_no_discovery (cfg : SophosConfig) :
    ∀ (cs : List ReqCall) (st : ClientState), resolved st = true →
      (runSeq cfg st cs).2 = false := by
  intro cs
  induction cs with
  | nil => intro st _; rfl
  | cons c cs ih =>
      intro st h
      have hk := request_keeps_resolved cfg st c.method c.endpoint c.params c.body
        c.useGlobalUrl c.env h
      unfold runSeq
      dsimp only
      rw [hk.1, ih _ hk.2]
      rfl

/-- Which base host a `request` call with the given flag selects, when it gets
as far as building the URL. -/
theorem request_base_host (cfg : SophosConfig) (st : ClientState)
    (m ep : String) (ps : List (String × Option String)) (b : Option String)
    (ugu : Bool) (env : ReqEnv) :
    (request cfg st m ep ps b ugu env).usedGlobalUrl = none ∨
    ((request cfg st m ep ps b ugu env).usedGlobalUrl = some ugu ∧
     (request cfg st m ep ps b ugu env).baseUrl =
       some (if ugu then cfg.globalUrl
             else jsStr (request cfg st m ep ps b ugu env).st.dataRegionUrl)) := by
  unfold request
  dsimp only
  cases hd : (discoverTenant cfg st env.nowD env.authNetD env.whoamiNet).outcome with
  | error e =>
      exact Or.inl rfl
  | ok u =>
      dsimp only
      cases ha : (authenticate
          cfg (discoverTenant cfg st env.nowD env.authNetD env.whoamiNet).st
          env.nowA env.authNetA).outcome with
      | error e =>
          exact Or.inl rfl
      | ok tok =>
          dsimp only
          cases env.reqNet with
          | fetchError name =>
              dsimp only
              split <;> exact Or.inr ⟨rfl, rfl⟩
          | resp status statusText errJson rah rbody =>
              dsimp only
              split
              · split
                · exact Or.inr ⟨rfl, rfl⟩
                · exact Or.inr ⟨rfl, rfl⟩
              · refine Or.inr ⟨rfl, ?_⟩
                have hr := handleErrorResponse_region_eq
                  (authenticate cfg
                    (discoverTenant cfg st env.nowD env.authNetD env.whoamiNet).st
                    env.nowA env.authNetA).st
                  { status := status, statusText := statusText
                    json := errJson, retryAfterHeader := rah }
                rw [hr.1]

/-! Claim theorems. -/

/-- C1: for a token cached by a successful exchange at time `t0` with reported
lifetime `expires_in` seconds (true expiry `T = t0 + expires_in`), an
`authenticate` call strictly before `T − 60s` returns the cached token without
a network call, and a call at or after `T − 60s` performs a fresh token
exchange; in particular `T − 61s` reuses the cache and `T − 59s` renews. -/
theorem authenticate_safety_margin_boundary
    (cfg : SophosConfig) (st0 st : ClientState) (t0 now : Int)
    (body : SophosTokenResponse) (net : AuthNet)
    (hmiss : tokenCacheHit st0 t0 = false)
    (hec : truthyStr body.errorCode = false)
    (htok : body.access_token ≠ "")
    (hnow : 0 ≤ now)
    (hstored : st = (authenticate cfg st0 t0 (.ok body)).st) :
    (now < t0 + body.expires_in * 1000 - 60000 →
      authenticate cfg st now net =
        { outcome := .ok body.access_token, st := st, networkCalled := false }) ∧
    (t0 + body.expires_in * 1000 - 60000 ≤ now →
      (authenticate cfg st now net).networkCalled = true) := by
  have hst : st = { st0 with
      accessToken := some body.access_token
      tokenExpiresAt := some (t0 + (body.expires_in - 60) * 1000) } := by
    rw [hstored]
    simp [authenticate, hmiss, hec]
  subst hst
  constructor
  · intro h
    have hlt : now < t0 + (body.expires_in - 60) * 1000 := by omega
    have hne : t0 + (body.expires_in - 60) * 1000 ≠ 0 := by omega
    have hhit : tokenCacheHit
        { st0 with
          accessToken := some body.access_token
          tokenExpiresAt := some (t0 + (body.expires_in - 60) * 1000) } now = true := by
      simp [tokenCacheHit, truthyStr, truthyInt, htok, hne, hlt]
    simp [authenticate, hhit]
  · intro h
    have hge : ¬ (now < t0 + (body.expires_in - 60) * 1000) := by omega
    have hmiss2 : tokenCacheHit
        { st0 with
          accessToken := some body.access_token
          tokenExpiresAt := some (t0 + (body.expires_in - 60) * 1000) } now = false := by
      simp [tokenCacheHit, hge]
    exact authenticate_networkCalled_of_miss cfg _ now net hmiss2

/-- C1 witness: a token issued at `t0 = 0` with `expires_in = 3600` is reused
at `T − 61s = 3539000ms` and renewed at `T − 59s = 3541000ms`. -/
theorem authenticate_safety_margin_boundary_witness :
    (authenticate cfgEx ((authenticate cfgEx stEmpty 0 (.ok tokBodyEx)).st)
        3539000 (.httpError 500 none) =
      { outcome := .ok tokBodyEx.access_token
        st := (authenticate cfgEx stEmpty 0 (.ok tokBodyEx)).st
        networkCalled := false }) ∧
    (authenticate cfgEx ((authenticate cfgEx stEmpty 0 (.ok tokBodyEx)).st)
        3541000 (.httpError 500 none)).networkCalled = true := by
  constructor
  · exact (authenticate_safety_margin_boundary cfgEx stEmpty _ 0 3539000 tokBodyEx
      (.httpError 500 none) (by decide) (by decide) (by decide) (by decide) rfl).1
      (by decide)
  · exact (authenticate_safety_margin_boundary cfgEx stEmpty _ 0 3541000 tokBodyEx
      (.httpError 500 none) (by decide) (by decide) (by decide) (by decide) rfl).2
      (by decide)

/-- C2: every dispatched response with status 401 or 403 makes the error
handler clear the cached access token and its expiry, and throw a
`SophosAuthError` carrying that response status; the immediately following
`authenticate` call therefore performs a fresh token exchange. -/
theorem handleErrorResponse_auth_invalidates_token
    (st : ClientState) (resp : ErrResponse)
    (h : resp.status = 401 ∨ resp.status = 403) :
    (handleErrorResponse st resp).2.accessToken = none ∧
    (handleErrorResponse st resp).2.tokenExpiresAt = none ∧
    (∃ msg, (handleErrorResponse st resp).1 = .authError msg (some resp.status)) ∧
    (∀ cfg now net,
      (authenticate cfg (handleErrorResponse st resp).2 now net).networkCalled = true) := by
  unfold handleErrorResponse
  dsimp only
  rw [if_pos h]
  refine ⟨rfl, rfl, ⟨_, rfl⟩, ?_⟩
  intro cfg now net
  apply authenticate_networkCalled_of_miss
  simp [tokenCacheHit, truthyStr]

/-- C2 witness: a 401 response clears the token cache of a resolved client
with a cached token, throws a 401 `SophosAuthError`, and the next
`authenticate` hits the network. -/
theorem handleErrorResponse_auth_invalidates_token_witness :
    (handleErrorResponse stResolved resp401Ex).2.accessToken = none ∧
    (handleErrorResponse stResolved resp401Ex).2.tokenExpiresAt = none ∧
    (handleErrorResponse stResolved resp401Ex).1 =
      .authError "Authentication failed: 401 Unauthorized" (some 401) ∧
    (authenticate cfgEx (handleErrorResponse stResolved resp401Ex).2 0
      (.httpError 500 none)).networkCalled = true := by
  have h := handleErrorResponse_auth_invalidates_token stResolved resp401Ex (Or.inl rfl)
  exact ⟨h.1, h.2.1, by decide, h.2.2.2 cfgEx 0 (.httpError 500 none)⟩

/-- C3: every dispatched response with status 429 is thrown as a
`SophosRateLimitError` whose status code is 429; with a `Retry-After: 30`
header the retry-after field is exactly `30`, and with the header absent it is
`undefined`. -/
theorem handleErrorResponse_rate_limit
    (st : ClientState) (resp : ErrResponse) (h : resp.status = 429) :
    (∃ msg ra, (handleErrorResponse st resp).1 = .rateLimitError msg 429 ra) ∧
    (resp.retryAfterHeader = some "30" →
      ∃ msg, (handleErrorResponse st resp).1 =
        .rateLimitError msg 429 (some (some 30))) ∧
    (resp.retryAfterHeader = none →
      ∃ msg, (handleErrorResponse st resp).1 = .rateLimitError msg 429 none) := by
  have hno : ¬ (resp.status = 401 ∨ resp.status = 403) := by omega
  unfold handleErrorResponse
  dsimp only
  rw [if_neg hno, if_pos h]
  refine ⟨⟨_, _, rfl⟩, ?_, ?_⟩
  · intro hra
    rw [hra]
    have h30 : (if truthyStr (some "30") = true
        then some (jsParseInt ((some "30").getD "")) else none) =
        (some (some 30) : Option (Option Int)) := by decide
    rw [h30]
    exact ⟨_, rfl⟩
  · intro hra
    rw [hra]
    have hnone : (if truthyStr (none : Option String) = true
        then some (jsParseInt ((none : Option String).getD "")) else none) =
        (none : Option (Option Int)) := by decide
    rw [hnone]
    exact ⟨_, rfl⟩

/-- C3 witness: a concrete 429 with `Retry-After: 30` yields retry-after
exactly 30, and a concrete 429 without the header yields `undefined`. -/
theorem handleErrorResponse_rate_limit_witness :
    (handleErrorResponse stResolved resp429RetryEx).1 =
      .rateLimitError "Rate limited: 429 Too Many Requests" 429 (some (some 30)) ∧
    (handleErrorResponse stResolved resp429NoRetryEx).1 =
      .rateLimitError "Rate limited: 429 Too Many Requests" 429 none := by
  obtain ⟨m1, hm1⟩ := (handleErrorResponse_rate_limit stResolved resp429RetryEx rfl).2.1 rfl
  obtain ⟨m2, hm2⟩ := (handleErrorResponse_rate_limit stResolved resp429NoRetryEx rfl).2.2 rfl
  exact ⟨by decide, by decide⟩

/-- C5: when the token-endpoint fetch of `authenticate` is aborted by the
configured timeout (an `AbortError`), the thrown error is the base
`SophosClientError`, not a `SophosAuthError`. -/
theorem authenticate_timeout_is_client_error
    (cfg : SophosConfig) (st : ClientState) (now : Int)
    (h : tokenCacheHit st now = false) :
    (authenticate cfg st now (.fetchError "AbortError")).outcome =
      .error (.sophos (.clientError
        ("OAuth2 token request timed out after " ++ toString cfg.timeout ++ "ms")
        none)) ∧
    Thrown.isAuthError (.sophos (.clientError
        ("OAuth2 token request timed out after " ++ toString cfg.timeout ++ "ms")
        none)) = false := by
  constructor
  · unfold authenticate
    rw [h]
    simp
  · rfl

/-- C5 witness: a fresh client whose token request aborts gets the timeout
`SophosClientError`, which is not of the auth kind. -/
theorem authenticate_timeout_is_client_error_witness :
    (authenticate cfgEx stEmpty 0 (.fetchError "AbortError")).outcome =
      .error (.sophos (.clientError
        ("OAuth2 token request timed out after " ++ toString cfgEx.timeout ++ "ms")
        none)) ∧
    Thrown.isAuthError (.sophos (.clientError
        ("OAuth2 token request timed out after " ++ toString cfgEx.timeout ++ "ms")
        none)) = false := by
  have h := authenticate_timeout_is_client_error cfgEx stEmpty 0 (by decide)
  exact ⟨h.1, h.2⟩

/-- C8: a token exchange whose HTTP status is a success but whose JSON body
carries an application-level `errorCode` fails with a `SophosAuthError` and
leaves the client state (in particular the token cache) unchanged. -/
theorem authenticate_error_code_in_success_body
    (cfg : SophosConfig) (st : ClientState) (now : Int)
    (body : SophosTokenResponse)
    (hmiss : tokenCacheHit st now = false)
    (hec : truthyStr body.errorCode = true) :
    (∃ msg, (authenticate cfg st now (.ok body)).outcome =
      .error (.sophos (.authError msg none))) ∧
    (authenticate cfg st now (.ok body)).st = st := by
  unfold authenticate
  rw [hmiss]
  simp only [Bool.false_eq_true, if_false]
  rw [if_pos hec]
  exact ⟨⟨_, rfl⟩, rfl⟩

/-- C8 witness: a 200-status token body embedding an error code is rejected
with a `SophosAuthError` and stores nothing. -/
theorem authenticate_error_code_in_success_body_witness :
    (authenticate cfgEx stEmpty 0 (.ok tokBodyErrEx)).outcome =
      .error (.sophos (.authError
        "OAuth2 error: oauth.invalid_client_secret — Invalid client secret" none)) ∧
    (authenticate cfgEx stEmpty 0 (.ok tokBodyErrEx)).st = stEmpty := by
  have h := authenticate_error_code_in_success_body cfgEx stEmpty 0 tokBodyErrEx
    (by decide) (by decide)
  exact ⟨by decide, h.2⟩

/-- C9: handling a 401/403 response mutates only the two token-cache fields:
the data-region URL and the tenant identifier are unchanged (the configuration
is immutable and passed separately), so a later re-authentication does not
repeat discovery on a resolved client. -/
theorem handleErrorResponse_frame_region
    (st : ClientState) (resp : ErrResponse)
    (h : resp.status = 401 ∨ resp.status = 403) :
    (handleErrorResponse st resp).2.dataRegionUrl = st.dataRegionUrl ∧
    (handleErrorResponse st resp).2.tenantId = st.tenantId ∧
    (handleErrorResponse st resp).2.accessToken = none ∧
    (handleErrorResponse st resp).2.tokenExpiresAt = none ∧
    (∀ cfg now authNet whoamiNet, resolved st = true →
      (discoverTenant cfg (handleErrorResponse st resp).2 now authNet
        whoamiNet).discoveryCalled = false) := by
  have hr := handleErrorResponse_region_eq st resp
  refine ⟨hr.1, hr.2, ?_, ?_, ?_⟩
  · unfold handleErrorResponse
    dsimp only
    rw [if_pos h]
  · unfold handleErrorResponse
    dsimp only
    rw [if_pos h]
  · intro cfg now authNet whoamiNet hres
    have hres2 : resolved (handleErrorResponse st resp).2 = true := by
      unfold resolved at hres ⊢
      rw [hr.1, hr.2]
      exact hres
    rw [discoverTenant_noop_of_resolved cfg _ now authNet whoamiNet hres2]

/-- C9 witness: a 401 on a resolved client leaves the region binding intact
and the follow-up discovery is a no-op. -/
theorem handleErrorResponse_frame_region_witness :
    (handleErrorResponse stResolved resp401Ex).2.dataRegionUrl =
      stResolved.dataRegionUrl ∧
    (handleErrorResponse stResolved resp401Ex).2.tenantId = stResolved.tenantId ∧
    (handleErrorResponse stResolved resp401Ex).2.accessToken = none ∧
    (handleErrorResponse stResolved resp401Ex).2.tokenExpiresAt = none ∧
    (discoverTenant cfgEx (handleErrorResponse stResolved resp401Ex).2 0
      (.ok tokBodyEx) (.ok whoamiEx)).discoveryCalled = false := by
  have h := handleErrorResponse_frame_region stResolved resp401Ex (Or.inl rfl)
  exact ⟨h.1, h.2.1, h.2.2.1, h.2.2.2.1,
    h.2.2.2.2 cfgEx 0 (.ok tokBodyEx) (.ok whoamiEx) (by decide)⟩

/-- C4 (code observation at the failing input): with no region binding and a
valid cached token, a discovery fetch aborted by the configured timeout is
rethrown by `discoverTenant` as the raw `AbortError`, not wrapped into a
`SophosClientError` — the catch block around the whoami fetch rethrows the
error unchanged, unlike the corresponding catch blocks in `authenticate` and
`request`. -/
theorem discoverTenant_timeout_unwrapped :
    (discoverTenant cfgEx stTokenOnly 0 (.ok tokBodyEx)
      (.fetchError "AbortError")).outcome = .error (.jsError "AbortError") ∧
    Thrown.isSophosError (.jsError "AbortError") = false := by
  exact ⟨by decide, rfl⟩

/-- C6: once both the data-region URL and the tenant identifier are non-empty,
`discoverTenant` is a no-op, and across every subsequent sequence of
dispatched requests the discovery endpoint is never contacted again. -/
theorem discovery_at_most_once (cfg : SophosConfig) (st : ClientState)
    (h : resolved st = true) :
    (∀ now authNet whoamiNet,
      discoverTenant cfg st now authNet whoamiNet =
        { outcome := .ok (), st := st, authNetworkCalled := false
          discoveryCalled := false }) ∧
    (∀ cs, (runSeq cfg st cs).2 = false) := by
  exact ⟨fun now an wn => discoverTenant_noop_of_resolved cfg st now an wn h,
    fun cs => runSeq_no_discovery cfg cs st h⟩

/-- C6 witness: on a resolved client, discovery is a no-op and a concrete
two-request sequence never hits the discovery endpoint. -/
theorem discovery_at_most_once_witness :
    discoverTenant cfgEx stResolved 0 (.ok tokBodyEx) (.ok whoamiEx) =
      { outcome := .ok (), st := stResolved, authNetworkCalled := false
        discoveryCalled := false } ∧
    (runSeq cfgEx stResolved
      [ { method := "GET", endpoint := "/endpoint/v1/endpoints", params := []
          body := none, useGlobalUrl := false, env := envEx }
      , { method := "POST", endpoint := "/common/v1/alerts", params := []
          body := some "{}", useGlobalUrl := false, env := envEx } ]).2 = false := by
  have h := discovery_at_most_once cfgEx stResolved (by decide)
  exact ⟨h.1 0 (.ok tokBodyEx) (.ok whoamiEx), h.2 _⟩

/-- C7: when discovery reaches the whoami response and succeeds, configured
values win — a region field that was already non-empty keeps its value, and
only a previously empty field is filled from the response. -/
theorem discoverTenant_config_precedence
    (cfg : SophosConfig) (st : ClientState) (now : Int) (authNet : AuthNet)
    (body : SophosWhoamiResponse)
    (hok : (discoverTenant cfg st now authNet (.ok body)).outcome = .ok ()) :
    (truthyStr st.dataRegionUrl = true →
      (discoverTenant cfg st now authNet (.ok body)).st.dataRegionUrl =
        st.dataRegionUrl) ∧
    (truthyStr st.tenantId = true →
      (discoverTenant cfg st now authNet (.ok body)).st.tenantId = st.tenantId) ∧
    (truthyStr st.dataRegionUrl = false →
      (discoverTenant cfg st now authNet (.ok body)).st.dataRegionUrl =
        some body.dataRegion) ∧
    (truthyStr st.tenantId = false →
      (discoverTenant cfg st now authNet (.ok body)).st.tenantId = some body.id) := by
  by_cases hres : resolved st = true
  · rw [discoverTenant_noop_of_resolved cfg st now authNet (.ok body) hres]
    have hband := hres
    unfold resolved at hband
    rw [Bool.and_eq_true] at hband
    refine ⟨fun _ => rfl, fun _ => rfl, ?_, ?_⟩
    · intro hfalse
      simp [hfalse] at hband
    · intro hfalse
      simp [hfalse] at hband
  · have hreg := authenticate_region_eq cfg st now authNet
    unfold resolved at hres
    unfold discoverTenant at hok ⊢
    rw [if_neg hres] at hok ⊢
    dsimp only at hok ⊢
    cases ha : (authenticate cfg st now authNet).outcome with
    | error e =>
        rw [ha] at hok
        exact Except.noConfusion hok
    | ok tok =>
        refine ⟨?_, ?_, ?_, ?_⟩ <;> intro h <;>
          simp [jsOrStr, hreg.1, hreg.2, h]

/-- C7 witness: with a configured data-region URL but no tenant id, discovery
keeps the configured URL and fills only the tenant id from the response. -/
theorem discoverTenant_config_precedence_witness :
    truthyStr stCfgUrlOnly.dataRegionUrl = true ∧
    truthyStr stCfgUrlOnly.tenantId = false ∧
    (discoverTenant cfgEx stCfgUrlOnly 0 (.ok tokBodyEx) (.ok whoamiEx)).st.dataRegionUrl =
      stCfgUrlOnly.dataRegionUrl ∧
    (discoverTenant cfgEx stCfgUrlOnly 0 (.ok tokBodyEx) (.ok whoamiEx)).st.tenantId =
      some whoamiEx.id := by
  have h := discoverTenant_config_precedence cfgEx stCfgUrlOnly 0 (.ok tokBodyEx)
    whoamiEx (by decide)
  exact ⟨by decide, by decide, h.1 (by decide), h.2.2.2 (by decide)⟩

/-- C10: `patch` and `delete` call `request` with the global-host flag left at
its default `false`, so whenever their dispatch reaches URL building it
targets the data-region host, never the global one; `get` and `post` pass the
caller's flag through, and with the flag set the global host is used. -/
theorem patch_delete_target_data_region
    (cfg : SophosConfig) (st : ClientState) (method endpoint : String)
    (params : List (String × Option String)) (body : Option String)
    (useGlobalUrl : Bool) (env : ReqEnv) :
    patch cfg st endpoint body params env =
      request cfg st "PATCH" endpoint params body false env ∧
    delete cfg st endpoint params env =
      request cfg st "DELETE" endpoint params none false env ∧
    ((request cfg st method endpoint params body false env).usedGlobalUrl = none ∨
     ((request cfg st method endpoint params body false env).usedGlobalUrl = some false ∧
      (request cfg st method endpoint params body false env).baseUrl =
        some (jsStr (request cfg st method endpoint params body false env).st.dataRegionUrl))) ∧
    ((request cfg st method endpoint params body true env).usedGlobalUrl = none ∨
     ((request cfg st method endpoint params body true env).usedGlobalUrl = some true ∧
      (request cfg st method endpoint params body true env).baseUrl =
        some cfg.globalUrl)) ∧
    get cfg st endpoint params useGlobalUrl env =
      request cfg st "GET" endpoint params none useGlobalUrl env ∧
    post cfg st endpoint body params useGlobalUrl env =
      request cfg st "POST" endpoint params body useGlobalUrl env := by
  refine ⟨rfl, rfl, ?_, ?_, rfl, rfl⟩
  · rcases request_base_host cfg st method endpoint params body false env with h | h
    · exact Or.inl h
    · exact Or.inr ⟨h.1, h.2⟩
  · rcases request_base_host cfg st method endpoint params body true env with h | h
    · exact Or.inl h
    · exact Or.inr ⟨h.1, h.2⟩

end Sophos
